import Mathlib

/-!
Verification of the dictionary-entry resolution and ranking core of the
auto-anki-maker repository.

The source of truth is `src/yasashii/japanese_word.py` (methods `_get_jp_word`,
`_filter_and_rank_results`, `_get_primary_meaning`), together with the two
redundant draft copies in `src/auto_anki_maker/japanese_word.py` and
`src/main.py` (method `get_primary_meaning`), which differ from the yasashii
copy only in the `meanings` field of the returned dict.

Dictionary entries are JSON dicts; every key access in the source goes through
`dict.get` with a default, except for `x['text']` on glosses and on common
kanji/kana forms, `int(x.get('id','999999'))` during ranking, and the jmespath
expression compilation, all of which can raise.  Fields that the source reads
with `.get` are therefore modelled as `Option`s, and each raising operation is
modelled in `Except PyErr`.
-/

namespace AutoAnki

/-- The exceptions the resolver can raise: `LexerError`/`ParseError` from
jmespath expression compilation (the query word is spliced verbatim into the
filter expression), `ValueError` from `int()` on a non-numeric id, and
`KeyError` from direct `['text']` indexing. `injectedExpr` marks a spliced
word that derails the template without producing a lexer error (see
`compileSplice`). -/
inductive PyErr where
  | lexerError : PyErr
  | injectedExpr : PyErr
  | valueError : PyErr
  | keyError : PyErr
deriving Repr, DecidableEq

/-- One kanji or kana form: a dict with optional `text` and `common` keys
(the source reads `common` via `.get('common', False)` and `text` either via
`.get` or by direct indexing, depending on the site). -/
structure Form where
  text : Option String
  common : Option Bool
deriving Repr, DecidableEq, Inhabited

/-- One tagged example sentence: a dict with optional `land` (language tag;
the source really uses the key `'land'`, not `'lang'`) and `text` keys. -/
structure Sentence where
  land : Option String
  text : Option String
deriving Repr, DecidableEq, Inhabited

/-- One usage example: optional Japanese source `text` and an optional list of
tagged `sentences`. -/
structure ExampleBlock where
  text : Option String
  sentences : Option (List Sentence)
deriving Repr, DecidableEq, Inhabited

/-- One gloss: a dict whose `text` the source reads by direct indexing
`g['text']` (raising `KeyError` when absent). -/
structure Gloss where
  text : Option String
deriving Repr, DecidableEq, Inhabited

/-- One sense of a dictionary entry. -/
structure Sense where
  gloss : Option (List Gloss)
  partOfSpeech : Option (List String)
  examples : Option (List ExampleBlock)
deriving Repr, DecidableEq, Inhabited

/-- One dictionary entry of the loaded `jmdict_words` list. -/
structure Entry where
  id : Option String
  kanji : Option (List Form)
  kana : Option (List Form)
  sense : Option (List Sense)
deriving Repr, DecidableEq, Inhabited

/-- The dict returned by yasashii's `_get_primary_meaning`: its `meanings`
key holds the glosses formatted as one numbered-list string
(`'\n'.join(f"{i+1}. {m}" ...)`). -/
structure MeaningRecord where
  word : String
  readings : List String
  kanji : List String
  meanings : String
  part_of_speech : List String
  examples : List (String × String × String)
deriving Repr, DecidableEq, Inhabited

/-- The dict returned by `get_primary_meaning` in `src/auto_anki_maker` and
`src/main.py`: identical to `MeaningRecord` except that `meanings` is the raw
list of gloss texts. -/
structure MeaningRecordAAM where
  word : String
  readings : List String
  kanji : List String
  meanings : List String
  part_of_speech : List String
  examples : List (String × String × String)
deriving Repr, DecidableEq, Inhabited

/-- A Python runtime value, used to compare field values across the record
variants (a str and a list are never the same value). -/
inductive PyVal where
  | str : String → PyVal
  | list : List PyVal → PyVal

/-- Python `int(s)` for the id strings: an optional sign followed by digits
parses; anything else raises `ValueError` (modelled as `none`).  Python's
`int` additionally strips surrounding whitespace and permits `_` separators;
those forms never occur in the dataset's id strings and are not modelled. -/
def digitsVal : List Char → Option Nat
  | [] => none
  | cs =>
    if cs.all (fun c => c.isDigit) then
      some (cs.foldl (fun n c => n * 10 + (c.toNat - '0'.toNat)) 0)
    else none

/-- See `digitsVal`; `pyInt s` is `some (int(s))` or `none` when `int` would
raise `ValueError`. -/
def pyInt (s : String) : Option Int :=
  match s.data with
  | '-' :: rest => (digitsVal rest).map (fun n => -(n : Int))
  | '+' :: rest => (digitsVal rest).map (fun n => (n : Int))
  | cs => (digitsVal cs).map (fun n => (n : Int))

/-- jmespath `kanji[?text=='v']` (resp. `kana[?...]`) used as a filter
condition: a missing list is null (falsy), a present list matches when some
element's `text` equals the literal. -/
def matchText (v : String) (forms : Option (List Form)) : Bool :=
  (forms.getD []).any (fun f => f.text == some v)

/-- `any(k.get('common', False) for k in x.get('kanji', []))`. -/
def hasCommonKanji (e : Entry) : Bool :=
  (e.kanji.getD []).any (fun f => f.common.getD false)

/-- `any(k.get('common', False) for k in x.get('kana', []))`. -/
def hasCommonKana (e : Entry) : Bool :=
  (e.kana.getD []).any (fun f => f.common.getD false)

/-- `-bool` in the sort key: Python's unary minus on a bool gives -1 / 0, so
entries having the flag sort first under ascending order. -/
def negB (b : Bool) : Int := if b then -1 else 0

/-- The composite sort key of `_filter_and_rank_results`
`(-any(common kanji), -any(common kana), int(id))`, with the id component
defaulted; it is only used (see `filterAndRankResults`) after `mapRankKeys`
has certified that every id parses, where the default is never taken. -/
def rankKeyD (e : Entry) : Int × Int × Int :=
  (negB (hasCommonKanji e), negB (hasCommonKana e), (pyInt (e.id.getD "999999")).getD 0)

/-- Computing one entry's sort key tuple; `int()` on a present non-numeric id
raises `ValueError`. -/
def rankKeyE (e : Entry) : Except PyErr (Int × Int × Int) :=
  match pyInt (e.id.getD "999999") with
  | some i => .ok (negB (hasCommonKanji e), negB (hasCommonKana e), i)
  | none => .error .valueError

/-- Python's `list.sort(key=...)` first computes the key of every element, in
list order, raising on the first failure. -/
def mapRankKeys : List Entry → Except PyErr (List (Int × Int × Int))
  | [] => .ok []
  | e :: rest =>
    match rankKeyE e with
    | .error err => .error err
    | .ok k =>
      match mapRankKeys rest with
      | .error err => .error err
      | .ok ks => .ok (k :: ks)

/-- Lexicographic comparison of key tuples, as Python compares tuples. -/
def lexLe3 (a b : Int × Int × Int) : Prop :=
  a.1 < b.1 ∨ (a.1 = b.1 ∧ (a.2.1 < b.2.1 ∨ (a.2.1 = b.2.1 ∧ a.2.2 ≤ b.2.2)))

instance (a b : Int × Int × Int) : Decidable (lexLe3 a b) :=
  inferInstanceAs (Decidable (_ ∨ _))

/-- Key-based total preorder on entries used by the ranking sort. -/
def entryLe (a b : Entry) : Prop := lexLe3 (rankKeyD a) (rankKeyD b)

instance (a b : Entry) : Decidable (entryLe a b) :=
  inferInstanceAs (Decidable (lexLe3 _ _))

instance : IsTotal Entry entryLe :=
  ⟨fun a b => by simp only [entryLe, lexLe3]; omega⟩

instance : IsTrans Entry entryLe :=
  ⟨fun a b c h1 h2 => by simp only [entryLe, lexLe3] at h1 h2 ⊢; omega⟩

/-- `results.sort(key=...)`: Python's sort is stable; insertion sort with the
total preorder `entryLe` computes exactly the stable sort by that key
(sortedness is proved in `C1_ranking`, stability in
`rankedSort_filter_key`). -/
def rankedSort (l : List Entry) : List Entry := List.insertionSort entryLe l

/-- `best_result = results[0].copy();
if max_senses and len(best_result.get('sense', [])) > max_senses:
  best_result['sense'] = best_result['sense'][:max_senses]` — the truncation
rebinds the `sense` key of the (shallow) copy to a fresh slice. -/
def truncSenses (e : Entry) (maxSenses : Nat) : Entry :=
  if maxSenses ≠ 0 ∧ (e.sense.getD []).length > maxSenses then
    { e with sense := some ((e.sense.getD []).take maxSenses) }
  else e

/-- `_filter_and_rank_results` (identical in all three source copies): rank
when `prefer_common`, then return a sense-truncated copy of `results[0]`.
When `prefer_common` is false no keys are computed and no sort happens. -/
def filterAndRankResults (results : List Entry) (preferCommon : Bool) (maxSenses : Nat) :
    Except PyErr (Option Entry) :=
  if results = [] then .ok none
  else if preferCommon then
    match mapRankKeys results with
    | .error e => .error e
    | .ok _ => .ok (some (truncSenses (rankedSort results).headI maxSenses))
  else .ok (some (truncSenses results.headI maxSenses))

/-- `_get_jp_word` (identical in all three source copies) for a query word
whose splice into the jmespath template is the identity (no single quote, no
escape-swallowed closing delimiter; the general spliced compilation is
modelled by `getJpWordChecked`): search `kanji[].text` for an exact match,
fall back to `kana[].text` only when the kanji result list is empty. -/
def getJpWord (words : List Entry) (w : String) (preferCommon : Bool) (maxSenses : Nat) :
    Except PyErr (Option Entry) :=
  let result := words.filter (fun e => matchText w e.kanji)
  if result ≠ [] then filterAndRankResults result preferCommon maxSenses
  else
    let result2 := words.filter (fun e => matchText w e.kana)
    if result2 ≠ [] then filterAndRankResults result2 preferCommon maxSenses
    else .ok none

/-- `[s.get('text','') for s in example.get('sentences', []) if s.get('land') == 'jpn']`. -/
def jpnSents (ex : ExampleBlock) : List String :=
  ((ex.sentences.getD []).filter (fun s => s.land == some "jpn")).map (fun s => s.text.getD "")

/-- Same with the `'eng'` tag. -/
def engSents (ex : ExampleBlock) : List String :=
  ((ex.sentences.getD []).filter (fun s => s.land == some "eng")).map (fun s => s.text.getD "")

/-- One loop iteration of the example extraction: when both language lists are
non-empty the emitted triple is `(example.get('text',''), jpn[0], eng[0])`;
otherwise nothing is appended. -/
def examplePair (ex : ExampleBlock) : Option (String × String × String) :=
  match jpnSents ex, engSents ex with
  | j :: _, e :: _ => some (ex.text.getD "", j, e)
  | _, _ => none

/-- `for example in primary_sense.get('examples', [])[:max_examples]: ...` —
the quota truncates the raw example list before the per-example filtering. -/
def extractExamples (s : Sense) (maxExamples : Nat) : List (String × String × String) :=
  ((s.examples.getD []).take maxExamples).filterMap examplePair

/-- `[g['text'] for g in primary_sense.get('gloss', [])]` — direct `['text']`
indexing raises `KeyError` on a gloss dict lacking the key. -/
def glossTexts (s : Sense) : Except PyErr (List String) :=
  match (s.gloss.getD []).mapM (fun g => g.text) with
  | some l => .ok l
  | none => .error .keyError

/-- `[k['text'] for k in result.get('kana', []) if k.get('common', False)]` —
the whole comprehension is evaluated (raising `KeyError` on any common form
lacking `text`) before the `[:2]` slice is applied. -/
def commonTexts (forms : Option (List Form)) : Except PyErr (List String) :=
  match ((forms.getD []).filter (fun k => k.common.getD false)).mapM (fun k => k.text) with
  | some l => .ok l
  | none => .error .keyError

/-- `'\n'.join([f"{i+1}. {meaning}" for i, meaning in enumerate(meanings)])`. -/
def formatMeanings (ms : List String) : String :=
  String.intercalate "\n" (ms.enum.map (fun p => toString (p.1 + 1) ++ ". " ++ p.2))

/-- yasashii's `_get_primary_meaning` for splice-clean query words: resolve
with `prefer_common=True, max_senses=1`, keep only the first sense, and build
the record dict.  The evaluation order of the raising subexpressions follows
the source: the gloss comprehension (line 109) runs before the dict literal,
whose keys evaluate readings (kana) before kanji.  Like `getJpWord`, this
omits the jmespath compilation of the spliced query word; the full behavior,
including the compile-time `LexerError` path, is `getPrimaryMeaningChecked`,
which coincides with this function exactly on splice-clean words
(`getPrimaryMeaningChecked_clean`). -/
def getPrimaryMeaning (words : List Entry) (w : String) (maxExamples : Nat) :
    Except PyErr (Option MeaningRecord) :=
  match getJpWord words w true 1 with
  | .error e => .error e
  | .ok none => .ok none
  | .ok (some r) =>
    match r.sense.getD [] with
    | [] => .ok none
    | primary :: _ =>
      match glossTexts primary with
      | .error e => .error e
      | .ok meanings =>
        match commonTexts r.kana with
        | .error e => .error e
        | .ok readings =>
          match commonTexts r.kanji with
          | .error e => .error e
          | .ok kanjis =>
            .ok (some
              { word := w
                readings := readings.take 2
                kanji := kanjis.take 2
                meanings := formatMeanings meanings
                part_of_speech := primary.partOfSpeech.getD []
                examples := extractExamples primary maxExamples })

/-- `get_primary_meaning` of `src/auto_anki_maker/japanese_word.py`: same
pipeline, but the `meanings` key holds the raw gloss-text list. -/
def getPrimaryMeaningAAM (words : List Entry) (w : String) (maxExamples : Nat) :
    Except PyErr (Option MeaningRecordAAM) :=
  match getJpWord words w true 1 with
  | .error e => .error e
  | .ok none => .ok none
  | .ok (some r) =>
    match r.sense.getD [] with
    | [] => .ok none
    | primary :: _ =>
      match glossTexts primary with
      | .error e => .error e
      | .ok meanings =>
        match commonTexts r.kana with
        | .error e => .error e
        | .ok readings =>
          match commonTexts r.kanji with
          | .error e => .error e
          | .ok kanjis =>
            .ok (some
              { word := w
                readings := readings.take 2
                kanji := kanjis.take 2
                meanings := meanings
                part_of_speech := primary.partOfSpeech.getD []
                examples := extractExamples primary maxExamples })

/-- `get_primary_meaning` of `src/main.py`, character-for-character the same
function as the `src/auto_anki_maker` copy. -/
def getPrimaryMeaningMain (words : List Entry) (w : String) (maxExamples : Nat) :
    Except PyErr (Option MeaningRecordAAM) :=
  match getJpWord words w true 1 with
  | .error e => .error e
  | .ok none => .ok none
  | .ok (some r) =>
    match r.sense.getD [] with
    | [] => .ok none
    | primary :: _ =>
      match glossTexts primary with
      | .error e => .error e
      | .ok meanings =>
        match commonTexts r.kana with
        | .error e => .error e
        | .ok readings =>
          match commonTexts r.kanji with
          | .error e => .error e
          | .ok kanjis =>
            .ok (some
              { word := w
                readings := readings.take 2
                kanji := kanjis.take 2
                meanings := meanings
                part_of_speech := primary.partOfSpeech.getD []
                examples := extractExamples primary maxExamples })

/-- The yasashii record is the AAM record with the gloss list rendered as the
numbered string. -/
def toYasashii (r : MeaningRecordAAM) : MeaningRecord :=
  { word := r.word
    readings := r.readings
    kanji := r.kanji
    meanings := formatMeanings r.meanings
    part_of_speech := r.part_of_speech
    examples := r.examples }

/-- State-threaded resolver: the loaded index is threaded as the mutable
state visible to a sequence of calls.  In the source, `results.sort` mutates
only the fresh list produced by `jmespath.search`, and the sense truncation
assigns into `results[0].copy()`, never into the stored entry, so a call
reads the index and returns it intact. -/
def getPrimaryMeaningSt (w : String) (maxExamples : Nat) (index : List Entry) :
    Except PyErr (Option MeaningRecord) × List Entry :=
  (getPrimaryMeaning index w maxExamples, index)

/-!
Model of the jmespath expression construction of `_get_jp_word`:
`jmespath.compile(f"[?kanji[?text=='{word}']]")` splices the query word
verbatim between the single quotes of a raw-string literal.  The jmespath
lexer consumes a raw string with `_consume_until("'")`, which treats a
backslash as escaping the following character (keeping both characters in the
lexeme) and raises `LexerError` when the expression ends before an unescaped
quote; the lexeme is then post-processed with `.replace("\\'", "'")`.
-/

/-- `_consume_until("'")` on the characters following an opening quote:
returns the raw lexeme and the characters after the closing quote, or `none`
for an unclosed delimiter (`LexerError`). -/
def consumeUntilQuote : List Char → Option (List Char × List Char)
  | [] => none
  | [c] => if c = '\'' then some ([], []) else none
  | c :: d :: rest =>
    if c = '\'' then some ([], d :: rest)
    else if c = '\\' then (consumeUntilQuote rest).map (fun p => (c :: d :: p.1, p.2))
    else (consumeUntilQuote (d :: rest)).map (fun p => (c :: p.1, p.2))

/-- Python `lexeme.replace("\\'", "'")`: left-to-right, non-overlapping. -/
def pyReplaceEscQuote : List Char → List Char
  | [] => []
  | [c] => [c]
  | c :: d :: rest =>
    if c = '\\' ∧ d = '\'' then '\'' :: pyReplaceEscQuote rest
    else c :: pyReplaceEscQuote (d :: rest)

/-- Raw-string-aware scan of the characters after the first raw string: in
jmespath, the only lexing failure a spliced word can introduce there is an
unclosed raw-string delimiter.  `inStr` says whether the scan is inside a raw
string; a backslash inside a string escapes the next character. -/
def lexChars : List Char → Bool → Bool
  | [], inStr => !inStr
  | [c], true => if c = '\'' then true else false
  | [c], false => if c = '\'' then false else true
  | c :: d :: rest, true =>
    if c = '\'' then lexChars (d :: rest) false
    else if c = '\\' then lexChars rest true
    else lexChars (d :: rest) true
  | c :: d :: rest, false =>
    if c = '\'' then lexChars (d :: rest) true else lexChars (d :: rest) false

/-- Outcome of `jmespath.compile` on the spliced template, as far as the
raw-string literal is concerned. -/
inductive CompileResult where
  | lexerError : CompileResult
  | injected (value : String) (rest : List Char) : CompileResult
  | ok (value : String) : CompileResult
deriving Repr, DecidableEq

/-- Compilation of `f"[?kanji[?text=='{word}']]"` (the kana template splices
the same word in the same position): lex the raw string opened by the
template's `'` against `word + "']]"`.  `ok v` : the literal closes exactly
where the template intended, and the filter compares `text` to `v`;
`lexerError` : some raw string is left unclosed and `compile` raises;
`injected` : the spliced word closed the literal early without a lexing
error — the template is derailed and the source no longer performs the
single intended comparison (real jmespath may then still fail in the parser;
no claim is settled against this constructor). -/
def compileSplice (w : String) : CompileResult :=
  match consumeUntilQuote (w.data ++ ('\'' :: ']' :: ']' :: [])) with
  | none => .lexerError
  | some p =>
    if p.2 = ']' :: ']' :: [] then .ok (String.mk (pyReplaceEscQuote p.1))
    else if lexChars p.2 false then .injected (String.mk (pyReplaceEscQuote p.1)) p.2
    else .lexerError

/-- `compileSplice` as the raising step of `_get_jp_word`. -/
def compileValue (w : String) : Except PyErr String :=
  match compileSplice w with
  | .ok v => .ok v
  | .lexerError => .error .lexerError
  | .injected _ _ => .error .injectedExpr

/-- `_get_jp_word` with the expression compilation made explicit: the kanji
expression is compiled (and can raise) before the kanji search, and the kana
expression is compiled only when the kanji result list is empty. -/
def getJpWordChecked (words : List Entry) (w : String) (preferCommon : Bool) (maxSenses : Nat) :
    Except PyErr (Option Entry) :=
  match compileValue w with
  | .error e => .error e
  | .ok v =>
    let result := words.filter (fun e => matchText v e.kanji)
    if result ≠ [] then filterAndRankResults result preferCommon maxSenses
    else
      match compileValue w with
      | .error e => .error e
      | .ok v2 =>
        let result2 := words.filter (fun e => matchText v2 e.kana)
        if result2 ≠ [] then filterAndRankResults result2 preferCommon maxSenses
        else .ok none

/-- `_get_primary_meaning` with the expression compilation of its
`_get_jp_word` call made explicit (see `getJpWordChecked`): the record
pipeline is identical to `getPrimaryMeaning`, but a word whose splice breaks
the jmespath template raises before any search.  For splice-clean words the
two agree (`getPrimaryMeaningChecked_clean`). -/
def getPrimaryMeaningChecked (words : List Entry) (w : String) (maxExamples : Nat) :
    Except PyErr (Option MeaningRecord) :=
  match getJpWordChecked words w true 1 with
  | .error e => .error e
  | .ok none => .ok none
  | .ok (some r) =>
    match r.sense.getD [] with
    | [] => .ok none
    | primary :: _ =>
      match glossTexts primary with
      | .error e => .error e
      | .ok meanings =>
        match commonTexts r.kana with
        | .error e => .error e
        | .ok readings =>
          match commonTexts r.kanji with
          | .error e => .error e
          | .ok kanjis =>
            .ok (some
              { word := w
                readings := readings.take 2
                kanji := kanjis.take 2
                meanings := formatMeanings meanings
                part_of_speech := primary.partOfSpeech.getD []
                examples := extractExamples primary maxExamples })

/-- A word splices cleanly when no backslash escape can swallow the
template's closing quote: every backslash consumes the next character of the
word itself.  Quote-freeness is assumed separately. -/
def spliceableB : List Char → Bool
  | [] => true
  | [c] => if c = '\\' then false else true
  | c :: d :: rest => if c = '\\' then spliceableB rest else spliceableB (d :: rest)

/-!  Concrete data used by counterexamples and witnesses. -/

/-- The scenario dataset of spec §8: one entry for 猫. -/
def catEntry : Entry :=
  { id := some "1"
    kanji := some [{ text := some "猫", common := some true }]
    kana := some [{ text := some "ねこ", common := some true }]
    sense := some
      [{ gloss := some [{ text := some "cat" }]
         partOfSpeech := some ["n"]
         examples := some
           [{ text := none
              sentences := some
                [{ land := some "jpn", text := some "猫がいる" },
                 { land := some "eng", text := some "There is a cat" }] }] }] }

/-- The spec §8 scenario index. -/
def scenarioWords : List Entry := [catEntry]

/-- An entry matching 犬 whose id is present but non-numeric. -/
def badIdEntry : Entry :=
  { id := some "abc"
    kanji := some [{ text := some "犬", common := some true }]
    kana := some [{ text := some "いぬ", common := some true }]
    sense := some [{ gloss := some [{ text := some "dog" }], partOfSpeech := some ["n"],
                     examples := none }] }

/-- A well-formed entry also matching 犬. -/
def dogEntry : Entry :=
  { id := some "2"
    kanji := some [{ text := some "犬", common := some true }]
    kana := some [{ text := some "いぬ", common := some true }]
    sense := some [{ gloss := some [{ text := some "dog" }], partOfSpeech := some ["n"],
                     examples := none }] }

/-- An entry matching 鳥 with a common kana form whose `text` key is missing:
building its record raises `KeyError`. -/
def noTextEntry : Entry :=
  { id := some "3"
    kanji := some [{ text := some "鳥", common := some true }]
    kana := some [{ text := none, common := some true }]
    sense := some [{ gloss := some [{ text := some "bird" }], partOfSpeech := some ["n"],
                     examples := none }] }

/-- An entry whose common kanji text is the quote-bearing string `a'b`: its
text equals the query word `a'b`, yet resolving that word raises from
expression construction before any search. -/
def quoteEntry : Entry :=
  { id := some "4"
    kanji := some [{ text := some "a'b", common := some true }]
    kana := some [{ text := some "あび", common := some true }]
    sense := some [{ gloss := some [{ text := some "quote" }], partOfSpeech := some ["n"],
                     examples := none }] }

/-- An example block carrying only a Japanese-tagged sentence. -/
def jpnOnlyExample : ExampleBlock :=
  { text := some "x", sentences := some [{ land := some "jpn", text := some "猫" }] }

/-- An example block carrying both language tags. -/
def fullExample (j e : String) : ExampleBlock :=
  { text := none
    sentences := some [{ land := some "jpn", text := some j },
                       { land := some "eng", text := some e }] }

/-- A sense whose first raw example lacks English: with `max_examples = 2`
only one pair is emitted although two valid pairs exist in the list. -/
def quotaSense : Sense :=
  { gloss := some [{ text := some "cat" }]
    partOfSpeech := some ["n"]
    examples := some [jpnOnlyExample, fullExample "猫がいる" "There is a cat",
                      fullExample "猫が好き" "I like cats"] }

/-- The record yasashii's resolver computes for 猫 on `scenarioWords`. -/
def catRecord : MeaningRecord :=
  { word := "猫", readings := ["ねこ"], kanji := ["猫"], meanings := "1. cat",
    part_of_speech := ["n"], examples := [("", "猫がいる", "There is a cat")] }

/-- The record the `auto_anki_maker`/`main.py` copies compute for 猫. -/
def catRecordAAM : MeaningRecordAAM :=
  { word := "猫", readings := ["ねこ"], kanji := ["猫"], meanings := ["cat"],
    part_of_speech := ["n"], examples := [("", "猫がいる", "There is a cat")] }

/-- An entry with no id key at all. -/
def noIdEntry : Entry :=
  { id := none
    kanji := some [{ text := some "山", common := some true }]
    kana := some [{ text := some "やま", common := some true }]
    sense := some [{ gloss := some [{ text := some "mountain" }], partOfSpeech := some ["n"],
                     examples := none }] }

/-!  Helper lemmas. -/

lemma headI_mem {α : Type} [Inhabited α] {l : List α} (h : l ≠ []) : l.headI ∈ l := by
  cases l with
  | nil => exact absurd rfl h
  | cons a t => simp

lemma rankedSort_perm (l : List Entry) : List.Perm (rankedSort l) l :=
  List.perm_insertionSort entryLe l

lemma rankedSort_ne_nil {l : List Entry} (h : l ≠ []) : rankedSort l ≠ [] := by
  intro hn
  have hp := rankedSort_perm l
  rw [hn] at hp
  exact h hp.symm.eq_nil

lemma rankKeyE_ok_of_isSome {e : Entry} (h : (pyInt (e.id.getD "999999")).isSome) :
    ∃ k, rankKeyE e = .ok k := by
  cases hp : pyInt (e.id.getD "999999") with
  | none => rw [hp] at h; simp at h
  | some i =>
    exact ⟨(negB (hasCommonKanji e), negB (hasCommonKana e), i), by simp [rankKeyE, hp]⟩

lemma mapRankKeys_isOk : ∀ {rs : List Entry},
    (∀ e ∈ rs, (pyInt (e.id.getD "999999")).isSome) →
    ∃ ks, mapRankKeys rs = .ok ks
  | [], _ => ⟨[], rfl⟩
  | e :: rest, h => by
    obtain ⟨k, hk⟩ := rankKeyE_ok_of_isSome (h e (List.mem_cons_self e rest))
    obtain ⟨ks, hks⟩ := mapRankKeys_isOk (fun x hx => h x (List.mem_cons_of_mem e hx))
    exact ⟨k :: ks, by simp [mapRankKeys, hk, hks]⟩

lemma filterAndRank_ne_ok_none {results : List Entry} {pc : Bool} {ms : Nat}
    (h : results ≠ []) : filterAndRankResults results pc ms ≠ .ok none := by
  unfold filterAndRankResults
  simp only [if_neg h]
  cases pc with
  | false => simp
  | true => cases hm : mapRankKeys results <;> simp

lemma filterAndRank_ok_some {results : List Entry} {pc : Bool} {ms : Nat} {b : Entry}
    (h : filterAndRankResults results pc ms = .ok (some b)) :
    ∃ e ∈ results, b = truncSenses e ms := by
  unfold filterAndRankResults at h
  by_cases hr : results = []
  · simp [hr] at h
  · simp only [if_neg hr] at h
    cases pc with
    | false =>
      simp only [Bool.false_eq_true, if_false, Except.ok.injEq, Option.some.injEq] at h
      exact ⟨results.headI, headI_mem hr, h.symm⟩
    | true =>
      cases hm : mapRankKeys results with
      | error e => rw [hm] at h; exact absurd h (by simp)
      | ok ks =>
        rw [hm] at h
        simp only [if_true, Except.ok.injEq, Option.some.injEq] at h
        exact ⟨(rankedSort results).headI,
          (rankedSort_perm results).mem_iff.mp (headI_mem (rankedSort_ne_nil hr)), h.symm⟩

lemma filterAndRank_success {rs : List Entry} (pc : Bool) (ms : Nat)
    (h : rs ≠ []) (hids : ∀ x ∈ rs, (pyInt (x.id.getD "999999")).isSome) :
    ∃ b ∈ rs, filterAndRankResults rs pc ms = .ok (some (truncSenses b ms)) := by
  unfold filterAndRankResults
  simp only [if_neg h]
  cases pc with
  | false => exact ⟨rs.headI, headI_mem h, by simp⟩
  | true =>
    obtain ⟨ks, hks⟩ := mapRankKeys_isOk hids
    exact ⟨(rankedSort rs).headI,
      (rankedSort_perm rs).mem_iff.mp (headI_mem (rankedSort_ne_nil h)), by simp [hks]⟩

lemma getJpWord_ok_none_iff {words : List Entry} {w : String} {pc : Bool} {ms : Nat} :
    getJpWord words w pc ms = .ok none ↔
      words.filter (fun e => matchText w e.kanji) = [] ∧
      words.filter (fun e => matchText w e.kana) = [] := by
  unfold getJpWord
  by_cases h1 : words.filter (fun e => matchText w e.kanji) = []
  · by_cases h2 : words.filter (fun e => matchText w e.kana) = []
    · simp [h1, h2]
    · simp [h1, h2, filterAndRank_ne_ok_none h2]
  · simp [h1, filterAndRank_ne_ok_none h1]

lemma getJpWord_ok_some {words : List Entry} {w : String} {pc : Bool} {ms : Nat} {b : Entry}
    (h : getJpWord words w pc ms = .ok (some b)) :
    ∃ e ∈ words, b = truncSenses e ms := by
  unfold getJpWord at h
  by_cases h1 : words.filter (fun e => matchText w e.kanji) = []
  · by_cases h2 : words.filter (fun e => matchText w e.kana) = []
    · simp [h1, h2] at h
    · simp only [h1, ne_eq, not_true_eq_false, if_false, h2, not_false_eq_true, if_true] at h
      obtain ⟨e, he, hb⟩ := filterAndRank_ok_some h
      exact ⟨e, (List.mem_filter.mp he).1, hb⟩
  · simp only [h1, ne_eq, not_false_eq_true, if_true] at h
    obtain ⟨e, he, hb⟩ := filterAndRank_ok_some h
    exact ⟨e, (List.mem_filter.mp he).1, hb⟩

lemma filter_nil_iff {p : Entry → Bool} {l : List Entry} :
    l.filter p = [] ↔ ∀ e ∈ l, p e = false := by
  induction l with
  | nil => simp
  | cons a t ih => cases hp : p a <;> simp [List.filter_cons, hp, ih]

lemma lexLe3_refl (x : Int × Int × Int) : lexLe3 x x :=
  Or.inr ⟨rfl, Or.inr ⟨rfl, le_refl _⟩⟩

lemma entryLe_of_key_eq {a b : Entry} (h : rankKeyD a = rankKeyD b) : entryLe a b := by
  unfold entryLe
  rw [h]
  exact lexLe3_refl _

lemma filter_key_orderedInsert (a : Entry) (k : Int × Int × Int) :
    ∀ l : List Entry,
      (List.orderedInsert entryLe a l).filter (fun e => decide (rankKeyD e = k)) =
        if rankKeyD a = k
        then a :: l.filter (fun e => decide (rankKeyD e = k))
        else l.filter (fun e => decide (rankKeyD e = k))
  | [] => by by_cases hk : rankKeyD a = k <;> simp [hk]
  | b :: t => by
    simp only [List.orderedInsert]
    by_cases hle : entryLe a b
    · rw [if_pos hle]
      by_cases hk : rankKeyD a = k <;> simp [List.filter_cons, hk]
    · rw [if_neg hle, List.filter_cons, List.filter_cons]
      by_cases hbk : rankKeyD b = k
      · by_cases hk : rankKeyD a = k
        · exact absurd (entryLe_of_key_eq (hk.trans hbk.symm)) hle
        · simp [hbk, hk, filter_key_orderedInsert a k t]
      · by_cases hk : rankKeyD a = k <;>
          simp [hbk, hk, filter_key_orderedInsert a k t]

lemma rankedSort_filter_key : ∀ (l : List Entry) (k : Int × Int × Int),
    (rankedSort l).filter (fun e => decide (rankKeyD e = k)) =
      l.filter (fun e => decide (rankKeyD e = k))
  | [], _ => rfl
  | a :: t, k => by
    have ih := rankedSort_filter_key t k
    simp only [rankedSort, List.insertionSort] at ih ⊢
    rw [filter_key_orderedInsert a k (List.insertionSort entryLe t), ih]
    by_cases hk : rankKeyD a = k <;> simp [hk, List.filter_cons]

lemma consumeUntilQuote_append : ∀ (l : List Char) (r : List Char),
    '\'' ∉ l → spliceableB l = true →
    consumeUntilQuote (l ++ '\'' :: r) = some (l, r)
  | [], r, _, _ => by cases r <;> simp [consumeUntilQuote]
  | [c], r, hq, hs => by
    have hc : c ≠ '\'' := fun h => hq (h ▸ List.mem_cons_self c [])
    have hb : c ≠ '\\' := by
      intro h
      rw [show spliceableB [c] = (if c = '\\' then false else true) from rfl, if_pos h] at hs
      exact Bool.false_ne_true hs
    cases r <;> simp [consumeUntilQuote, hc, hb]
  | c :: d :: t, r, hq, hs => by
    have hc : c ≠ '\'' := fun h => hq (h ▸ List.mem_cons_self c (d :: t))
    rw [show (c :: d :: t) ++ '\'' :: r = c :: d :: (t ++ '\'' :: r) from rfl,
        show consumeUntilQuote (c :: d :: (t ++ '\'' :: r)) =
          (if c = '\'' then some ([], d :: (t ++ '\'' :: r))
           else if c = '\\' then
             (consumeUntilQuote (t ++ '\'' :: r)).map (fun p => (c :: d :: p.1, p.2))
           else (consumeUntilQuote (d :: (t ++ '\'' :: r))).map (fun p => (c :: p.1, p.2)))
          from rfl,
        if_neg hc]
    by_cases hb : c = '\\'
    · subst hb
      have hq2 : '\'' ∉ t := fun h => hq (by simp [h])
      have hs2 : spliceableB t = true := by
        rw [show spliceableB ('\\' :: d :: t) = spliceableB t from rfl] at hs
        exact hs
      rw [if_pos rfl, consumeUntilQuote_append t r hq2 hs2]
      rfl
    · have hq2 : '\'' ∉ d :: t := fun h => hq (List.mem_cons_of_mem _ h)
      have hs2 : spliceableB (d :: t) = true := by
        rw [show spliceableB (c :: d :: t) =
              (if c = '\\' then spliceableB t else spliceableB (d :: t)) from rfl,
            if_neg hb] at hs
        exact hs
      have ih := consumeUntilQuote_append (d :: t) r hq2 hs2
      rw [show (d :: t) ++ '\'' :: r = d :: (t ++ '\'' :: r) from rfl] at ih
      rw [if_neg hb, ih]
      rfl

lemma pyReplaceEscQuote_eq : ∀ (l : List Char), '\'' ∉ l → pyReplaceEscQuote l = l
  | [], _ => rfl
  | [_], _ => rfl
  | c :: d :: t, hq => by
    have hd : ¬(c = '\\' ∧ d = '\'') := fun h => hq (by simp [h.2])
    have hq2 : '\'' ∉ d :: t := fun h => hq (List.mem_cons_of_mem _ h)
    simp [pyReplaceEscQuote, hd, pyReplaceEscQuote_eq (d :: t) hq2]

lemma compileSplice_clean {w : String} (hq : '\'' ∉ w.data) (hs : spliceableB w.data = true) :
    compileSplice w = .ok w := by
  unfold compileSplice
  rw [consumeUntilQuote_append w.data (']' :: ']' :: []) hq hs]
  simp [pyReplaceEscQuote_eq w.data hq]

lemma getJpWordChecked_clean {w : String} (hq : '\'' ∉ w.data)
    (hs : spliceableB w.data = true) :
    ∀ (words : List Entry) (pc : Bool) (ms : Nat),
      getJpWordChecked words w pc ms = getJpWord words w pc ms := by
  intro words pc ms
  have hv : compileValue w = .ok w := by
    unfold compileValue
    rw [compileSplice_clean hq hs]
  unfold getJpWordChecked getJpWord
  rw [hv]

lemma getPrimaryMeaningChecked_clean {w : String} (hq : '\'' ∉ w.data)
    (hs : spliceableB w.data = true) :
    ∀ (words : List Entry) (mE : Nat),
      getPrimaryMeaningChecked words w mE = getPrimaryMeaning words w mE := by
  intro words mE
  unfold getPrimaryMeaningChecked getPrimaryMeaning
  rw [getJpWordChecked_clean hq hs words true 1]

lemma lexLe3_of_last_le {x y z1 z2 : Int} (h : z1 ≤ z2) :
    lexLe3 (x, y, z1) (x, y, z2) :=
  Or.inr ⟨rfl, Or.inr ⟨rfl, h⟩⟩

lemma not_lexLe3_of_last_lt {x y z1 z2 : Int} (h : z1 < z2) :
    ¬ lexLe3 (x, y, z2) (x, y, z1) := by
  rintro (h1 | ⟨-, h2 | ⟨-, h3⟩⟩)
  · exact lt_irrefl x h1
  · exact lt_irrefl y h2
  · exact absurd h3 (not_le.mpr h)

lemma filterAndRank_true_eval {rs : List Entry} (ms : Nat) (h : rs ≠ [])
    (hids : ∀ e ∈ rs, (pyInt (e.id.getD "999999")).isSome) :
    filterAndRankResults rs true ms = .ok (some (truncSenses (rankedSort rs).headI ms)) := by
  obtain ⟨ks, hks⟩ := mapRankKeys_isOk hids
  unfold filterAndRankResults
  rw [if_neg h, if_pos rfl, hks]

/-!  Claim theorems. -/

/-- C1: when `prefer_common` is true the candidate result set is sorted by
the composite ascending key (has-common-kanji, then has-common-kana, as the
negated booleans, then numeric id), the sort is stable (candidates with equal
keys keep their original query order), and for two candidates with identical
common-kanji/common-kana flags the one with the lower numeric id is selected
as the best match in either input order; when `prefer_common` is false the
result set keeps its original query order (no key is computed, no sort
happens) and the best match is the original first element. -/
theorem C1_ranking :
    (∀ rs : List Entry, List.Sorted entryLe (rankedSort rs)) ∧
    (∀ (rs : List Entry) (k : Int × Int × Int),
      (rankedSort rs).filter (fun e => decide (rankKeyD e = k)) =
        rs.filter (fun e => decide (rankKeyD e = k))) ∧
    (∀ (a b : Entry) (ms : Nat) (ia ib : Int),
      hasCommonKanji a = hasCommonKanji b → hasCommonKana a = hasCommonKana b →
      pyInt (a.id.getD "999999") = some ia → pyInt (b.id.getD "999999") = some ib →
      ia < ib →
      filterAndRankResults [a, b] true ms = .ok (some (truncSenses a ms)) ∧
      filterAndRankResults [b, a] true ms = .ok (some (truncSenses a ms))) ∧
    (∀ (rs : List Entry) (ms : Nat), rs ≠ [] →
      filterAndRankResults rs false ms = .ok (some (truncSenses rs.headI ms))) ∧
    (∀ (rs : List Entry) (ms : Nat), rs ≠ [] →
      (∀ e ∈ rs, (pyInt (e.id.getD "999999")).isSome) →
      filterAndRankResults rs true ms = .ok (some (truncSenses (rankedSort rs).headI ms))) := by
  refine ⟨fun rs => List.sorted_insertionSort entryLe rs, rankedSort_filter_key, ?_, ?_, ?_⟩
  · intro a b ms ia ib hfk hfn hia hib hlt
    have hKa : rankKeyD a = (negB (hasCommonKanji b), negB (hasCommonKana b), ia) := by
      unfold rankKeyD
      rw [hia, hfk, hfn]
      rfl
    have hKb : rankKeyD b = (negB (hasCommonKanji b), negB (hasCommonKana b), ib) := by
      unfold rankKeyD
      rw [hib]
      rfl
    have hab : entryLe a b := by
      unfold entryLe
      rw [hKa, hKb]
      exact lexLe3_of_last_le (le_of_lt hlt)
    have hba : ¬ entryLe b a := by
      unfold entryLe
      rw [hKa, hKb]
      exact not_lexLe3_of_last_lt hlt
    have hids1 : ∀ e ∈ [a, b], (pyInt (e.id.getD "999999")).isSome := by
      intro x hx
      rcases List.mem_pair.mp hx with h | h <;> subst h <;> simp [hia, hib]
    have hids2 : ∀ e ∈ [b, a], (pyInt (e.id.getD "999999")).isSome := by
      intro x hx
      rcases List.mem_pair.mp hx with h | h <;> subst h <;> simp [hia, hib]
    have hsort1 : rankedSort [a, b] = [a, b] := by
      unfold rankedSort
      simp only [List.insertionSort, List.orderedInsert]
      rw [if_pos hab]
    have hsort2 : rankedSort [b, a] = [a, b] := by
      unfold rankedSort
      simp only [List.insertionSort, List.orderedInsert]
      rw [if_neg hba]
    constructor
    · rw [filterAndRank_true_eval ms (by simp) hids1, hsort1]
      rfl
    · rw [filterAndRank_true_eval ms (by simp) hids2, hsort2]
      rfl
  · intro rs ms h
    unfold filterAndRankResults
    rw [if_neg h]
    rfl
  · intro rs ms h hids
    exact filterAndRank_true_eval ms h hids

/-- Witness for C1 at concrete entries: 猫 (id 1) and 犬 (id 2) carry the
same common flags, so the lower id is selected in either order; with
`prefer_common` false the original first element is selected. -/
theorem C1_witness :
    (filterAndRankResults [catEntry, dogEntry] true 3 = .ok (some (truncSenses catEntry 3)) ∧
     filterAndRankResults [dogEntry, catEntry] true 3 = .ok (some (truncSenses catEntry 3))) ∧
    filterAndRankResults [dogEntry, catEntry] false 3 =
      .ok (some (truncSenses ([dogEntry, catEntry]).headI 3)) :=
  ⟨C1_ranking.2.2.1 catEntry dogEntry 3 1 2 (by decide) (by decide) (by decide) (by decide)
     (by decide),
   C1_ranking.2.2.2.1 [dogEntry, catEntry] 3 (by decide)⟩

/-- Counterexample for C2: `quoteEntry` has a common kanji form whose text
equals the query word `a'b`, yet resolution of `a'b` raises `LexerError`
from the spliced expression before any search, so no kanji-matching entry
(nor anything else) is selected — the unrestricted claim fails. -/
theorem C2_counterexample :
    quoteEntry ∈ [quoteEntry] ∧
    matchText "a'b" quoteEntry.kanji = true ∧
    (quoteEntry.kanji.getD []).any (fun f => f.common.getD false) = true ∧
    getJpWordChecked [quoteEntry] "a'b" true 3 = .error .lexerError ∧
    getPrimaryMeaningChecked [quoteEntry] "a'b" 2 = .error .lexerError :=
  ⟨List.mem_singleton.mpr rfl, rfl, rfl, rfl, rfl⟩

/-- C2 amended: for every splice-clean query word (no single quote, each
backslash escaping a character of the word itself) the resolver queries the
index by exact kanji-text match first and consults the kana match only when
the kanji result set is empty; whenever some entry's kanji forms contain
such a word, the whole result is the ranking of the kanji-filtered set and
the selected best match is itself a kanji-matching entry (never an entry
matching only by kana).  A quote-bearing word equal to an entry's kanji text
instead raises from expression construction (see the counterexample). -/
theorem C2_kanji_first :
    ∀ (words : List Entry) (w : String) (pc : Bool) (ms : Nat) (e : Entry),
      '\'' ∉ w.data → spliceableB w.data = true →
      e ∈ words → matchText w e.kanji = true →
      (∀ x ∈ words.filter (fun y => matchText w y.kanji),
        (pyInt (x.id.getD "999999")).isSome) →
      getJpWordChecked words w pc ms =
        filterAndRankResults (words.filter (fun y => matchText w y.kanji)) pc ms ∧
      ∃ b, b ∈ words ∧ matchText w b.kanji = true ∧
        getJpWordChecked words w pc ms = .ok (some (truncSenses b ms)) := by
  intro words w pc ms e hq hsp he hm hids
  rw [getJpWordChecked_clean hq hsp words pc ms]
  have hne : words.filter (fun y => matchText w y.kanji) ≠ [] :=
    List.ne_nil_of_mem (List.mem_filter.mpr ⟨he, hm⟩)
  have heq : getJpWord words w pc ms =
      filterAndRankResults (words.filter (fun y => matchText w y.kanji)) pc ms := by
    unfold getJpWord
    rw [if_pos hne]
  refine ⟨heq, ?_⟩
  obtain ⟨b, hb, hfr⟩ := filterAndRank_success pc ms hne hids
  exact ⟨b, (List.mem_filter.mp hb).1, (List.mem_filter.mp hb).2, by rw [heq]; exact hfr⟩

/-- Witness for C2 on the spec §8 scenario: the splice-clean word 猫 matches
`catEntry` by kanji and the resolver selects it. -/
theorem C2_witness :
    ('\'' ∉ "猫".data) ∧ spliceableB "猫".data = true ∧
    (getJpWordChecked scenarioWords "猫" true 1 =
      filterAndRankResults (scenarioWords.filter (fun y => matchText "猫" y.kanji)) true 1 ∧
    ∃ b, b ∈ scenarioWords ∧ matchText "猫" b.kanji = true ∧
      getJpWordChecked scenarioWords "猫" true 1 = .ok (some (truncSenses b 1))) :=
  ⟨by decide, by decide,
   C2_kanji_first scenarioWords "猫" true 1 catEntry (by decide) (by decide) (by decide)
     (by decide) (by decide)⟩

/-- The NotFound biconditional over the splice-free resolver body; the C3
theorem transports it to the compile-aware resolver on splice-clean words. -/
lemma notfound_iff_plain :
    ∀ (words : List Entry) (w : String) (mE : Nat),
      (∀ err, getPrimaryMeaning words w mE ≠ .error err) →
      ((getPrimaryMeaning words w mE = .ok none ↔
          (∀ e ∈ words, matchText w e.kanji = false ∧ matchText w e.kana = false) ∨
          ∃ b, getJpWord words w true 1 = .ok (some b) ∧ b.sense.getD [] = []) ∧
        (getPrimaryMeaning words w mE ≠ .ok none →
          ∃ rec, getPrimaryMeaning words w mE = .ok (some rec))) := by
  intro words w mE herr
  cases hjw : getJpWord words w true 1 with
  | error e =>
    exact absurd (by simp only [getPrimaryMeaning, hjw]) (herr e)
  | ok o =>
    cases o with
    | none =>
      have hok : getPrimaryMeaning words w mE = .ok none := by
        simp only [getPrimaryMeaning, hjw]
      have hfil := getJpWord_ok_none_iff.mp hjw
      refine ⟨⟨fun _ => Or.inl ?_, fun _ => hok⟩, fun hne => absurd hok hne⟩
      intro e he
      exact ⟨filter_nil_iff.mp hfil.1 e he, filter_nil_iff.mp hfil.2 e he⟩
    | some b =>
      cases hs : b.sense.getD [] with
      | nil =>
        have hok : getPrimaryMeaning words w mE = .ok none := by
          simp only [getPrimaryMeaning, hjw, hs]
        exact ⟨⟨fun _ => Or.inr ⟨b, rfl, hs⟩, fun _ => hok⟩, fun hne => absurd hok hne⟩
      | cons primary rest =>
        cases hg : glossTexts primary with
        | error e =>
          exact absurd (by simp only [getPrimaryMeaning, hjw, hs, hg]) (herr e)
        | ok gs =>
          cases hrd : commonTexts b.kana with
          | error e =>
            exact absurd (by simp only [getPrimaryMeaning, hjw, hs, hg, hrd]) (herr e)
          | ok rds =>
            cases hkj : commonTexts b.kanji with
            | error e =>
              exact absurd (by simp only [getPrimaryMeaning, hjw, hs, hg, hrd, hkj]) (herr e)
            | ok kjs =>
              have hok : getPrimaryMeaning words w mE = .ok (some
                  { word := w, readings := rds.take 2, kanji := kjs.take 2,
                    meanings := formatMeanings gs,
                    part_of_speech := primary.partOfSpeech.getD [],
                    examples := extractExamples primary mE }) := by
                simp only [getPrimaryMeaning, hjw, hs, hg, hrd, hkj]
              refine ⟨⟨fun hcon => absurd (hok ▸ hcon) (by simp), ?_⟩, fun _ => ⟨_, hok⟩⟩
              rintro (hall | ⟨b2, hb2, hsb2⟩)
              · have hnil : getJpWord words w true 1 = .ok none :=
                  getJpWord_ok_none_iff.mpr
                    ⟨filter_nil_iff.mpr (fun e he => (hall e he).1),
                     filter_nil_iff.mpr (fun e he => (hall e he).2)⟩
                rw [hjw] at hnil
                exact absurd hnil (by simp)
              · simp only [Except.ok.injEq, Option.some.injEq] at hb2
                rw [← hb2, hs] at hsb2
                exact absurd hsb2 (by simp)

/-- Counterexample for C3: the word `a\` (quote-free, one trailing
backslash) is contained in no entry of the scenario index, so the claim
demands the NotFound sentinel — but resolution raises `LexerError` from
expression construction instead of returning at all. -/
theorem C3_counterexample :
    (∀ e ∈ scenarioWords, matchText "a\\" e.kanji = false ∧ matchText "a\\" e.kana = false) ∧
    getPrimaryMeaningChecked scenarioWords "a\\" 2 = .error .lexerError :=
  ⟨by decide, rfl⟩

/-- C3 amended: for every splice-clean query word (no single quote, each
backslash escaping a character of the word itself), assuming no exception is
raised, resolution returns NotFound (the `None` sentinel, not a raised
failure) exactly when either no entry's kanji-form or kana-form texts
contain the query word, or the selected best-ranked entry has an empty (or
missing) sense list; in every other case a meaning record is returned.  A
word whose splice swallows the template's closing quote instead raises
`LexerError` (see the counterexample). -/
theorem C3_notfound_iff :
    ∀ (words : List Entry) (w : String) (mE : Nat),
      '\'' ∉ w.data → spliceableB w.data = true →
      (∀ err, getPrimaryMeaningChecked words w mE ≠ .error err) →
      ((getPrimaryMeaningChecked words w mE = .ok none ↔
          (∀ e ∈ words, matchText w e.kanji = false ∧ matchText w e.kana = false) ∨
          ∃ b, getJpWordChecked words w true 1 = .ok (some b) ∧ b.sense.getD [] = []) ∧
        (getPrimaryMeaningChecked words w mE ≠ .ok none →
          ∃ rec, getPrimaryMeaningChecked words w mE = .ok (some rec))) := by
  intro words w mE hq hsp herr
  rw [getPrimaryMeaningChecked_clean hq hsp words mE] at herr ⊢
  rw [getJpWordChecked_clean hq hsp words true 1]
  exact notfound_iff_plain words w mE herr

/-- Witness for C3 on the spec §8 scenario: 猫 is splice-clean, resolution
raises nothing and, being a returned record, satisfies both directions. -/
theorem C3_witness :
    ('\'' ∉ "猫".data) ∧ spliceableB "猫".data = true ∧
    (∀ err, getPrimaryMeaningChecked scenarioWords "猫" 2 ≠ .error err) ∧
    ((getPrimaryMeaningChecked scenarioWords "猫" 2 = .ok none ↔
        (∀ e ∈ scenarioWords, matchText "猫" e.kanji = false ∧ matchText "猫" e.kana = false) ∨
        ∃ b, getJpWordChecked scenarioWords "猫" true 1 = .ok (some b) ∧ b.sense.getD [] = []) ∧
      (getPrimaryMeaningChecked scenarioWords "猫" 2 ≠ .ok none →
        ∃ rec, getPrimaryMeaningChecked scenarioWords "猫" 2 = .ok (some rec))) :=
  have hne : ∀ err, getPrimaryMeaningChecked scenarioWords "猫" 2 ≠ .error err := fun err h => by
    rw [show getPrimaryMeaningChecked scenarioWords "猫" 2 = .ok (some catRecord) from rfl] at h
    exact Except.noConfusion h
  ⟨by decide, by decide, hne, C3_notfound_iff scenarioWords "猫" 2 (by decide) (by decide) hne⟩

/-- C4: example-pair extraction iterates only the first `max_examples` raw
examples of the primary sense; an example emits a pair exactly when it has
both a "jpn"- and an "eng"-tagged sentence, using the first sentence of each
language; an example lacking either language is dropped entirely yet still
consumes quota — concretely, `quotaSense` holds two valid pairs after a bad
first example, but only one pair is emitted for `max_examples = 2`. -/
theorem C4_examples :
    (∀ (s : Sense) (mE : Nat),
      extractExamples s mE = ((s.examples.getD []).take mE).filterMap examplePair) ∧
    (∀ ex : ExampleBlock,
      examplePair ex =
        if jpnSents ex ≠ [] ∧ engSents ex ≠ []
        then some (ex.text.getD "", (jpnSents ex).headI, (engSents ex).headI)
        else none) ∧
    (extractExamples quotaSense 2).length = 1 ∧
    2 ≤ ((quotaSense.examples.getD []).filterMap examplePair).length := by
  refine ⟨fun s mE => rfl, ?_, by decide, by decide⟩
  intro ex
  unfold examplePair
  cases hj : jpnSents ex with
  | nil => simp
  | cons j jt =>
    cases he : engSents ex with
    | nil => simp
    | cons e et => simp

/-- C5: every returned record is built from the first sense only: `readings`
is the first 2 of the common kana-form texts (in entry order), `kanji` the
first 2 common kanji-form texts, the meanings string is the numbered
formatting of all gloss texts of the primary sense, `part_of_speech` is the
primary sense's tag list, and at most 2 readings / 2 kanji forms ever
appear. -/
theorem C5_record_shape :
    ∀ (words : List Entry) (w : String) (mE : Nat) (rec : MeaningRecord),
      getPrimaryMeaning words w mE = .ok (some rec) →
      ∃ b primary rest,
        getJpWord words w true 1 = .ok (some b) ∧
        b.sense.getD [] = primary :: rest ∧
        (∃ gs, glossTexts primary = .ok gs ∧ rec.meanings = formatMeanings gs) ∧
        (∃ rd, commonTexts b.kana = .ok rd ∧ rec.readings = rd.take 2) ∧
        (∃ kj, commonTexts b.kanji = .ok kj ∧ rec.kanji = kj.take 2) ∧
        rec.part_of_speech = primary.partOfSpeech.getD [] ∧
        rec.examples = extractExamples primary mE ∧
        rec.word = w ∧
        rec.readings.length ≤ 2 ∧ rec.kanji.length ≤ 2 := by
  intro words w mE rec h
  cases hjw : getJpWord words w true 1 with
  | error e =>
    simp only [getPrimaryMeaning, hjw] at h
    exact absurd h (by simp)
  | ok o =>
    cases o with
    | none =>
      simp only [getPrimaryMeaning, hjw] at h
      exact absurd h (by simp)
    | some b =>
      cases hs : b.sense.getD [] with
      | nil =>
        simp only [getPrimaryMeaning, hjw, hs] at h
        exact absurd h (by simp)
      | cons primary rest =>
        cases hg : glossTexts primary with
        | error e =>
          simp only [getPrimaryMeaning, hjw, hs, hg] at h
          exact absurd h (by simp)
        | ok gs =>
          cases hrd : commonTexts b.kana with
          | error e =>
            simp only [getPrimaryMeaning, hjw, hs, hg, hrd] at h
            exact absurd h (by simp)
          | ok rds =>
            cases hkj : commonTexts b.kanji with
            | error e =>
              simp only [getPrimaryMeaning, hjw, hs, hg, hrd, hkj] at h
              exact absurd h (by simp)
            | ok kjs =>
              simp only [getPrimaryMeaning, hjw, hs, hg, hrd, hkj, Except.ok.injEq,
                Option.some.injEq] at h
              subst h
              refine ⟨b, primary, rest, rfl, hs, ⟨gs, hg, rfl⟩, ⟨rds, hrd, rfl⟩,
                ⟨kjs, hkj, rfl⟩, rfl, rfl, rfl, ?_, ?_⟩
              · rw [show (MeaningRecord.readings _) = rds.take 2 from rfl, List.length_take]
                exact min_le_left _ _
              · rw [show (MeaningRecord.kanji _) = kjs.take 2 from rfl, List.length_take]
                exact min_le_left _ _

/-- Witness for C5 on the spec §8 scenario record for 猫. -/
theorem C5_witness :
    getPrimaryMeaning scenarioWords "猫" 2 = .ok (some catRecord) ∧
    (∃ b primary rest,
      getJpWord scenarioWords "猫" true 1 = .ok (some b) ∧
      b.sense.getD [] = primary :: rest ∧
      (∃ gs, glossTexts primary = .ok gs ∧ catRecord.meanings = formatMeanings gs) ∧
      (∃ rd, commonTexts b.kana = .ok rd ∧ catRecord.readings = rd.take 2) ∧
      (∃ kj, commonTexts b.kanji = .ok kj ∧ catRecord.kanji = kj.take 2) ∧
      catRecord.part_of_speech = primary.partOfSpeech.getD [] ∧
      catRecord.examples = extractExamples primary 2 ∧
      catRecord.word = "猫" ∧
      catRecord.readings.length ≤ 2 ∧ catRecord.kanji.length ≤ 2) :=
  ⟨rfl, C5_record_shape scenarioWords "猫" 2 catRecord rfl⟩

/-- Counterexample for C6: an entry whose id key is present but non-numeric
makes the ranking raise `ValueError` — `int('abc')` raises, the `'999999'`
default only covers a missing key — and a common kana form lacking its
`text` key makes record construction raise `KeyError`; neither malformation
is replaced by a default. -/
theorem C6_counterexample :
    badIdEntry.id = some "abc" ∧ pyInt "abc" = none ∧
    getJpWord [badIdEntry, dogEntry] "犬" true 3 = .error .valueError ∧
    getPrimaryMeaning [noTextEntry] "鳥" 2 = .error .keyError :=
  ⟨rfl, rfl, rfl, rfl⟩

/-- C6 amended: an entry whose id key is missing is ranked as if its id were
999999, but a present non-numeric id raises `ValueError` during ranking;
missing arrays read through `.get` (kanji, kana, sense, gloss list, example
list, sentences) are treated as empty, and a missing sentence text as the
empty string — while a missing `text` key on a gloss or a common kanji/kana
form raises `KeyError` (see the counterexample). -/
theorem C6_amended :
    (∀ e : Entry, e.id = none →
      rankKeyE e = .ok (negB (hasCommonKanji e), negB (hasCommonKana e), 999999)) ∧
    (∀ (e : Entry) (s : String), e.id = some s → pyInt s = none →
      rankKeyE e = .error .valueError) ∧
    (∀ v, matchText v none = matchText v (some [])) ∧
    (∀ (g : Option (List Gloss)) (p : Option (List String)) (mE : Nat),
      extractExamples ⟨g, p, none⟩ mE = extractExamples ⟨g, p, some []⟩ mE) ∧
    (∀ (p : Option (List String)) (x : Option (List ExampleBlock)),
      glossTexts ⟨none, p, x⟩ = .ok []) ∧
    commonTexts none = .ok [] ∧
    (∀ t : Option String, jpnSents ⟨t, none⟩ = [] ∧ engSents ⟨t, none⟩ = []) ∧
    jpnSents { text := none, sentences := some [{ land := some "jpn", text := none }] } =
      [""] := by
  refine ⟨?_, ?_, fun v => rfl, fun g p mE => rfl, fun p x => rfl, rfl,
    fun t => ⟨rfl, rfl⟩, rfl⟩
  · intro e h
    unfold rankKeyE
    rw [h]
    rfl
  · intro e s h hp
    unfold rankKeyE
    rw [h]
    simp only [Option.getD_some, hp]

/-- Witness for C6 amended: a missing id ranks as 999999; the non-numeric id
`"abc"` raises. -/
theorem C6_witness :
    noIdEntry.id = none ∧
    rankKeyE noIdEntry =
      .ok (negB (hasCommonKanji noIdEntry), negB (hasCommonKana noIdEntry), 999999) ∧
    badIdEntry.id = some "abc" ∧ pyInt "abc" = none ∧
    rankKeyE badIdEntry = .error .valueError :=
  ⟨rfl, C6_amended.1 noIdEntry rfl, rfl, rfl, C6_amended.2.1 badIdEntry "abc" rfl rfl⟩

/-- C7: no resolve call mutates the index — the state-threaded resolver
returns the index unchanged, and the selected entry handed out is a
(possibly sense-truncated) copy of a member of the index, which itself stays
in the index with its full sense list. -/
theorem C7_index_unchanged :
    ∀ (w : String) (mE : Nat) (index : List Entry),
      (getPrimaryMeaningSt w mE index).2 = index ∧
      ∀ b, getJpWord index w true 1 = .ok (some b) →
        ∃ e, e ∈ index ∧ b = truncSenses e 1 :=
  fun _ _ _ => ⟨rfl, fun _ hb => getJpWord_ok_some hb⟩

/-- Witness for C7 on the spec §8 scenario. -/
theorem C7_witness :
    (getPrimaryMeaningSt "猫" 2 scenarioWords).2 = scenarioWords ∧
    getJpWord scenarioWords "猫" true 1 = .ok (some catEntry) ∧
    ∃ e, e ∈ scenarioWords ∧ catEntry = truncSenses e 1 :=
  ⟨(C7_index_unchanged "猫" 2 scenarioWords).1, rfl,
   (C7_index_unchanged "猫" 2 scenarioWords).2 catEntry rfl⟩

/-- C8: resolution is deterministic and free of observable side effects:
running the state-threaded resolver twice in sequence with the same word and
parameters yields structurally identical results, and the index after both
calls is the original index. -/
theorem C8_deterministic :
    ∀ (w : String) (mE : Nat) (index : List Entry),
      (getPrimaryMeaningSt w mE ((getPrimaryMeaningSt w mE index).2)).1 =
        (getPrimaryMeaningSt w mE index).1 ∧
      (getPrimaryMeaningSt w mE ((getPrimaryMeaningSt w mE index).2)).2 = index :=
  fun _ _ _ => ⟨rfl, rfl⟩

/-- Counterexample for C9: on the spec §8 scenario the yasashii resolver's
`meanings` field is the formatted string `"1. cat"`, while both draft copies
return the raw list `["cat"]` — a str and a list are never the same value,
so the three copies do not return the same result with equal field values. -/
theorem C9_counterexample :
    getPrimaryMeaning scenarioWords "猫" 2 = .ok (some catRecord) ∧
    getPrimaryMeaningAAM scenarioWords "猫" 2 = .ok (some catRecordAAM) ∧
    getPrimaryMeaningMain scenarioWords "猫" 2 = .ok (some catRecordAAM) ∧
    catRecord.meanings = "1. cat" ∧ catRecordAAM.meanings = ["cat"] ∧
    PyVal.str catRecord.meanings ≠ PyVal.list (catRecordAAM.meanings.map PyVal.str) :=
  ⟨rfl, rfl, rfl, rfl, rfl, fun h => PyVal.noConfusion h⟩

/-- C9 amended: for every query word and dataset the three resolver copies
agree on every field except `meanings`: the yasashii record is exactly the
`auto_anki_maker` record with the gloss list rendered as the numbered-list
string (same errors, same NotFound), and the `src/main.py` copy is
identical to the `src/auto_anki_maker` copy. -/
theorem C9_equivalence :
    ∀ (words : List Entry) (w : String) (mE : Nat),
      getPrimaryMeaning words w mE =
        (getPrimaryMeaningAAM words w mE).map (Option.map toYasashii) ∧
      getPrimaryMeaningMain words w mE = getPrimaryMeaningAAM words w mE := by
  intro words w mE
  refine ⟨?_, rfl⟩
  cases hjw : getJpWord words w true 1 with
  | error e => simp only [getPrimaryMeaning, getPrimaryMeaningAAM, hjw, Except.map]
  | ok o =>
    cases o with
    | none =>
      simp only [getPrimaryMeaning, getPrimaryMeaningAAM, hjw, Except.map, Option.map]
    | some b =>
      cases hs : b.sense.getD [] with
      | nil =>
        simp only [getPrimaryMeaning, getPrimaryMeaningAAM, hjw, hs, Except.map, Option.map]
      | cons primary rest =>
        cases hg : glossTexts primary with
        | error e =>
          simp only [getPrimaryMeaning, getPrimaryMeaningAAM, hjw, hs, hg, Except.map]
        | ok gs =>
          cases hrd : commonTexts b.kana with
          | error e =>
            simp only [getPrimaryMeaning, getPrimaryMeaningAAM, hjw, hs, hg, hrd, Except.map]
          | ok rds =>
            cases hkj : commonTexts b.kanji with
            | error e =>
              simp only [getPrimaryMeaning, getPrimaryMeaningAAM, hjw, hs, hg, hrd, hkj,
                Except.map]
            | ok kjs =>
              simp only [getPrimaryMeaning, getPrimaryMeaningAAM, hjw, hs, hg, hrd, hkj,
                Except.map, Option.map, toYasashii]

/-- Counterexample for C10: the claim's universal part fails — `"a\"` is a
single-quote-free string, yet its splice escapes the template's closing
quote, so expression construction raises `LexerError` instead of performing
the equality match. -/
theorem C10_counterexample :
    ('\'' ∉ "a\\".data) ∧
    compileSplice "a\\" = .lexerError ∧
    ∀ (words : List Entry) (pc : Bool) (ms : Nat),
      getJpWordChecked words "a\\" pc ms = .error .lexerError :=
  ⟨by decide, rfl, fun _ _ _ => rfl⟩

/-- C10 amended: lookup is not total — the quote-containing input `"a'b"`
makes expression construction raise for every index; and for every
single-quote-free string whose backslashes each escape a character of the
word itself (in particular every quote- and backslash-free string, but not
`"a\"`, see the counterexample) the spliced literal compiles to the word
itself and the filter performs the exact equality match of `getJpWord`. -/
theorem C10_splice :
    (compileSplice "a'b" = .lexerError ∧
      ∀ (words : List Entry) (pc : Bool) (ms : Nat),
        getJpWordChecked words "a'b" pc ms = .error .lexerError) ∧
    (∀ w : String, '\'' ∉ w.data → spliceableB w.data = true →
      compileSplice w = .ok w ∧
      ∀ (words : List Entry) (pc : Bool) (ms : Nat),
        getJpWordChecked words w pc ms = getJpWord words w pc ms) := by
  refine ⟨⟨rfl, fun _ _ _ => rfl⟩, ?_⟩
  intro w hq hs
  exact ⟨compileSplice_clean hq hs,
    fun words pc ms => getJpWordChecked_clean hq hs words pc ms⟩

/-- Witness for C10 amended at the clean word ねこ. -/
theorem C10_witness :
    ('\'' ∉ "ねこ".data) ∧ spliceableB "ねこ".data = true ∧
    compileSplice "ねこ" = .ok "ねこ" ∧
    getJpWordChecked scenarioWords "ねこ" true 3 = getJpWord scenarioWords "ねこ" true 3 :=
  ⟨by decide, by decide,
   (C10_splice.2 "ねこ" (by decide) (by decide)).1,
   (C10_splice.2 "ねこ" (by decide) (by decide)).2 scenarioWords true 3⟩

end AutoAnki
